import Mathlib

/-!
Verification of the apple-watch-mcp-server health-data resolution core.

The definitions below are a shallow embedding of the TypeScript sources:
  - `AppleHealthXMLParser` (xmlParser.ts): `getDateRange`, `extractSteps`,
    `extractHeartRate`, `extractSleep`, `extractActiveCalories`,
    `extractHealthMetrics`, `parseHealthData` (the iteration with the
    100 MB size guard and parse timeout).
  - `AppleHealthReader` (appleHealth.ts): `readiPhoneData`,
    `processiPhoneData`, `checkForAppleHealthData`, `getHealthSummary`,
    `getRealisticMockData`.
  - `AppleWatchMCPServer.getWorkoutDetails` (index.ts).

Modelling conventions:
  - JavaScript numbers are modelled as exact rationals; timestamps are
    integers in milliseconds since the epoch, with local time equal to UTC.
  - `Math.floor` is `Int.floor`; `Math.round` rounds half toward positive
    infinity, which is `fun x => Int.floor (x + 1/2)`.
  - File-system and parser outcomes are explicit data in an environment
    record: a file is `none` when absent, and fallible stages carry their
    outcome as a value, mirroring the try/catch structure of the source.
  - `Math.random()` draws are explicit rational parameters in `[0, 1)`.
-/

/-- The three valid timeframe tokens of the source. -/
inductive Timeframe where
  | today
  | week
  | month
deriving DecidableEq, Repr

/-- JavaScript Math.floor on an exact rational. -/
def jsFloor (x : ℚ) : ℤ := ⌊x⌋

/-- JavaScript Math.round: rounds half toward positive infinity. -/
def jsRound (x : ℚ) : ℤ := ⌊x + 1/2⌋

/-- The heartRate triple of the HealthData interface (appleHealth.ts). -/
structure HeartRateTriple where
  resting : ℚ
  average : ℚ
  max : ℚ
deriving DecidableEq, Repr

/-- The HealthData interface of appleHealth.ts. -/
structure HealthData where
  steps : ℚ
  heartRate : HeartRateTriple
  sleepHours : ℚ
  activeCalories : ℚ
  workouts : ℚ
deriving DecidableEq, Repr

/-- A parsed Record element of the export: `r.$.type`, `parseFloat(r.$.value)`,
and the start/end dates as milliseconds since the epoch. -/
structure RawRecord where
  rtype : String
  value : ℚ
  startDate : ℤ
  endDate : ℤ
deriving DecidableEq, Repr

/-- A parsed Workout element; only its startDate is consulted by the code. -/
structure RawWorkout where
  startDate : ℤ
deriving DecidableEq, Repr

def stepTypeId : String := "HKQuantityTypeIdentifierStepCount"

def heartRateTypeId : String := "HKQuantityTypeIdentifierHeartRate"

def restingHeartRateTypeId : String := "HKQuantityTypeIdentifierRestingHeartRate"

def sleepTypeId : String := "HKCategoryTypeIdentifierSleepAnalysis"

def activeEnergyTypeId : String := "HKQuantityTypeIdentifierActiveEnergyBurned"

/-- Milliseconds in one day. -/
def msPerDay : ℤ := 86400000

/-- Midnight (00:00:00.000) of the day containing instant `t`:
the effect of `setHours(0, 0, 0, 0)` in the UTC model. -/
def startOfDay (t : ℤ) : ℤ := msPerDay * (t / msPerDay)

/-- 23:59:59.999 of the day containing instant `t`:
the effect of `setHours(23, 59, 59, 999)`. -/
def endOfDay (t : ℤ) : ℤ := startOfDay t + 86399999

/-- AppleHealthXMLParser.getDateRange: start and end instants for a timeframe,
relative to `now`.  `setDate(getDate() - k)` shifts the instant by exactly
`k` days (JavaScript normalizes out-of-range day numbers linearly), and the
subsequent `setHours(0,0,0,0)` takes the midnight of that day. -/
def getDateRange (timeframe : Timeframe) (now : ℤ) : ℤ × ℤ :=
  ( match timeframe with
    | .today => startOfDay now
    | .week => startOfDay (now - 7 * msPerDay)
    | .month => startOfDay (now - 30 * msPerDay)
  , endOfDay now )

/-- AppleHealthXMLParser.extractSteps: sum of values of StepCount records. -/
def extractSteps (records : List RawRecord) : ℚ :=
  ((records.filter (fun r => r.rtype = stepTypeId)).map (fun r => r.value)).sum

/-- One step of selecting the first record attaining the maximal startDate. -/
def pickStep (acc : Option RawRecord) (r : RawRecord) : Option RawRecord :=
  match acc with
  | none => some r
  | some a => if a.startDate < r.startDate then some r else some a

/-- The element at index 0 of the stable sort of the records by descending
startDate: the first record attaining the maximal startDate. -/
def pickMostRecent (l : List RawRecord) : Option RawRecord :=
  l.foldl pickStep none

/-- AppleHealthXMLParser.extractHeartRate. -/
def extractHeartRate (records : List RawRecord) : HeartRateTriple :=
  let heartRates :=
    ((records.filter (fun r => r.rtype = heartRateTypeId)).map (fun r => r.value))
  let restingHRRecords := records.filter (fun r => r.rtype = restingHeartRateTypeId)
  match heartRates with
  | [] => { resting := 60, average := 80, max := 120 }
  | h :: t =>
    let average := jsRound ((h :: t).sum / (h :: t).length)
    let maxHR := jsRound (t.foldl Max.max h)
    let resting : ℤ :=
      match pickMostRecent restingHRRecords with
      | some r => jsRound r.value
      | none => 60
    { resting := (resting : ℚ), average := (average : ℚ), max := (maxHR : ℚ) }

/-- AppleHealthXMLParser.extractSleep. -/
def extractSleep (records : List RawRecord) : ℚ :=
  let sleepRecords := records.filter (fun r => r.rtype = sleepTypeId)
  if sleepRecords.length = 0 then 7.5
  else
    let totalSleepMinutes :=
      (sleepRecords.map (fun r => ((r.endDate - r.startDate : ℤ) : ℚ) / 60000)).sum
    (jsRound (totalSleepMinutes / 60 * 10) : ℚ) / 10

/-- AppleHealthXMLParser.extractActiveCalories. -/
def extractActiveCalories (records : List RawRecord) : ℚ :=
  (jsRound (((records.filter (fun r => r.rtype = activeEnergyTypeId)).map
    (fun r => r.value)).sum) : ℚ)

/-- AppleHealthXMLParser.extractHealthMetrics: filter both collections to the
timeframe window by startDate, then aggregate the five metrics. -/
def extractHealthMetrics (records : List RawRecord) (workouts : List RawWorkout)
    (timeframe : Timeframe) (now : ℤ) : HealthData :=
  let range := getDateRange timeframe now
  let filteredRecords := records.filter
    (fun r => decide (range.1 ≤ r.startDate) && decide (r.startDate ≤ range.2))
  let filteredWorkouts := workouts.filter
    (fun w => decide (range.1 ≤ w.startDate) && decide (w.startDate ≤ range.2))
  { steps := extractSteps filteredRecords
    heartRate := extractHeartRate filteredRecords
    sleepHours := extractSleep filteredRecords
    activeCalories := extractActiveCalories filteredRecords
    workouts := (filteredWorkouts.length : ℚ) }

/-- The iPhoneHealthData interface (appleHealth.ts) as parsed JSON: each scalar
field is an optional number; `timestamp` is an optional string which, when
present and truthy, parses either to an instant (`some (some t)`) or to an
invalid date (`some none`, the NaN case). -/
structure LiveSnapshotJson where
  steps : Option ℚ
  heartRate : Option ℚ
  sleepHours : Option ℚ
  activeCalories : Option ℚ
  timestamp : Option (Option ℤ)
deriving DecidableEq, Repr

/-- JavaScript `v || d` on an optional number: a missing value and a zero value
are both falsy and replaced by the default. -/
def jsOr (v : Option ℚ) (d : ℚ) : ℚ :=
  match v with
  | some x => if x = 0 then d else x
  | none => d

/-- JavaScript `a && a > 300` on the raw optional activeCalories field:
false when the field is missing or zero. -/
def jsTruthyGt300 (v : Option ℚ) : Bool :=
  match v with
  | some a => if a = 0 then false else decide (300 < a)
  | none => false

/-- AppleHealthReader.readiPhoneData.  The live-sync file state is `none` when
absent, `some none` when unreadable or not valid JSON, and `some (some j)`
when it parses.  The data is returned only when the timestamp field is
present, parses to an instant, and `(now - t) / 3600000 < 24` hours;
every other path falls through to `null`. -/
def readiPhoneData (liveFile : Option (Option LiveSnapshotJson)) (now : ℤ) :
    Option LiveSnapshotJson :=
  match liveFile with
  | some (some j) =>
    match j.timestamp with
    | some (some t) => if now - t < 86400000 then some j else none
    | _ => none
  | _ => none

/-- AppleHealthReader.processiPhoneData: maps the snapshot onto HealthData.
Note the resting default: `(heartRate || 65) - 10`. -/
def processiPhoneData (d : LiveSnapshotJson) (timeframe : Timeframe) : HealthData :=
  { steps := jsOr d.steps 0
    heartRate :=
      { resting := jsOr d.heartRate 65 - 10
        average := jsOr d.heartRate 75
        max := jsOr d.heartRate 75 + 60 }
    sleepHours := jsOr d.sleepHours 7.5
    activeCalories := jsOr d.activeCalories 400
    workouts :=
      if timeframe = Timeframe.today then
        (if jsTruthyGt300 d.activeCalories then 1 else 0)
      else 5 }

/-- Outcome of reading and parsing export.xml once the size guard has passed:
either the parsed Record/Workout collections, or one of the failure modes of
`parseWithTimeout` (file read error, xml2js parse error, timer expiry). -/
inductive ParseOutcome where
  | parsed (records : List RawRecord) (workouts : List RawWorkout)
  | readFailed
  | malformed
  | timedOut
deriving DecidableEq, Repr

/-- The failure kinds of AppleHealthXMLParser.parseHealthData. -/
inductive ParseFailure where
  | notFound
  | tooLarge
  | readFailed
  | malformed
  | timeout
deriving DecidableEq, Repr

/-- The observable state of the export.xml file: its stat-reported size in
bytes, whether the first-kilobyte header check of checkForAppleHealthData
succeeds, and what reading plus parsing its content would yield. -/
structure XmlFile where
  sizeBytes : ℕ
  headerValid : Bool
  outcome : ParseOutcome
deriving DecidableEq, Repr

/-- AppleHealthXMLParser.parseWithTimeout: surfaces the read/parse/timeout
outcome, and on success extracts the metrics. -/
def parseWithTimeout (f : XmlFile) (timeframe : Timeframe) (now : ℤ) :
    Except ParseFailure HealthData :=
  match f.outcome with
  | .parsed records workouts => .ok (extractHealthMetrics records workouts timeframe now)
  | .readFailed => .error .readFailed
  | .malformed => .error .malformed
  | .timedOut => .error .timeout

/-- AppleHealthXMLParser.parseHealthData (xmlParser.ts iteration with the
guards): missing file fails with notFound; then the stat size is converted to
megabytes and compared against MAX_FILE_SIZE_MB = 100 before any content is
read; only below the ceiling does it read and parse. -/
def parseHealthData (file : Option XmlFile) (timeframe : Timeframe) (now : ℤ) :
    Except ParseFailure HealthData :=
  match file with
  | none => .error .notFound
  | some f =>
    if 100 < (f.sizeBytes : ℚ) / 1024 / 1024 then .error .tooLarge
    else parseWithTimeout f timeframe now

/-- AppleHealthReader.checkForAppleHealthData: false when export.xml is absent
or its first kilobyte fails the HealthData header check. -/
def checkForAppleHealthData (file : Option XmlFile) : Bool :=
  match file with
  | none => false
  | some f => f.headerValid

/-- The seven Math.random() draws consumed by getRealisticMockData, one per
randomized field of the selected band. -/
structure MockRands where
  rSteps : ℚ
  rResting : ℚ
  rAverage : ℚ
  rMax : ℚ
  rSleep : ℚ
  rCalories : ℚ
  rWorkouts : ℚ
deriving DecidableEq, Repr

/-- Every draw lies in the range of Math.random(). -/
def MockRands.InRange (rs : MockRands) : Prop :=
  (0 ≤ rs.rSteps ∧ rs.rSteps < 1) ∧ (0 ≤ rs.rResting ∧ rs.rResting < 1) ∧
  (0 ≤ rs.rAverage ∧ rs.rAverage < 1) ∧ (0 ≤ rs.rMax ∧ rs.rMax < 1) ∧
  (0 ≤ rs.rSleep ∧ rs.rSleep < 1) ∧ (0 ≤ rs.rCalories ∧ rs.rCalories < 1) ∧
  (0 ≤ rs.rWorkouts ∧ rs.rWorkouts < 1)

instance (rs : MockRands) : Decidable rs.InRange := by
  unfold MockRands.InRange
  infer_instance

/-- The steps field of the mock band for a timeframe (getRealisticMockData). -/
def mockSteps (timeframe : Timeframe) (seed : ℕ) (r : ℚ) : ℤ :=
  match timeframe with
  | .today => jsFloor (r * 4000) + 7000 + (seed : ℤ) * 100
  | .week => jsFloor (r * 1500) + 8500 + (seed : ℤ) * 50
  | .month => jsFloor (r * 1000) + 9000 + (seed : ℤ) * 25

/-- The heartRate.resting field of the mock band. -/
def mockResting (timeframe : Timeframe) (seed : ℕ) (r : ℚ) : ℤ :=
  match timeframe with
  | .today => jsFloor (r * 8) + 50 + ((seed % 5 : ℕ) : ℤ)
  | .week => jsFloor (r * 6) + 52 + ((seed % 4 : ℕ) : ℤ)
  | .month => jsFloor (r * 4) + 53 + ((seed % 3 : ℕ) : ℤ)

/-- The heartRate.average field of the mock band. -/
def mockAverage (timeframe : Timeframe) (seed : ℕ) (r : ℚ) : ℤ :=
  match timeframe with
  | .today => jsFloor (r * 15) + 75 + ((seed % 8 : ℕ) : ℤ)
  | .week => jsFloor (r * 12) + 76 + ((seed % 6 : ℕ) : ℤ)
  | .month => jsFloor (r * 8) + 77 + ((seed % 5 : ℕ) : ℤ)

/-- The heartRate.max field of the mock band. -/
def mockMax (timeframe : Timeframe) (seed : ℕ) (r : ℚ) : ℤ :=
  match timeframe with
  | .today => jsFloor (r * 25) + 145 + ((seed % 10 : ℕ) : ℤ)
  | .week => jsFloor (r * 20) + 150 + ((seed % 8 : ℕ) : ℤ)
  | .month => jsFloor (r * 15) + 155 + ((seed % 7 : ℕ) : ℤ)

/-- The sleepHours field of the mock band. -/
def mockSleep (timeframe : Timeframe) (seed : ℕ) (r : ℚ) : ℚ :=
  match timeframe with
  | .today => (jsRound ((r * 1.5 + 7 + ((seed % 3 : ℕ) : ℚ) * 0.2) * 10) : ℚ) / 10
  | .week => (jsRound ((r * 1 + 7.1 + ((seed % 2 : ℕ) : ℚ) * 0.3) * 10) : ℚ) / 10
  | .month => (jsRound ((r * 0.8 + 7.3 + ((seed % 2 : ℕ) : ℚ) * 0.2) * 10) : ℚ) / 10

/-- The activeCalories field of the mock band. -/
def mockCalories (timeframe : Timeframe) (seed : ℕ) (r : ℚ) : ℤ :=
  match timeframe with
  | .today => jsFloor (r * 200) + 350 + (seed : ℤ) * 20
  | .week => jsFloor (r * 400) + 2800 + (seed : ℤ) * 30
  | .month => jsFloor (r * 1500) + 12000 + (seed : ℤ) * 100

/-- The workouts field of the mock band. -/
def mockWorkoutCount (timeframe : Timeframe) (seed : ℕ) (r : ℚ) : ℤ :=
  match timeframe with
  | .today => if seed % 3 = 0 then 1 else 0
  | .week => jsFloor (r * 3) + 4 + ((seed % 3 : ℕ) : ℤ)
  | .month => jsFloor (r * 5) + 18 + ((seed % 4 : ℕ) : ℤ)

/-- AppleHealthReader.getRealisticMockData, with the date-derived seed
(`getDate() + getMonth()`, plus `getHours()` in the later iteration) and the
Math.random() draws passed explicitly. -/
def getRealisticMockData (timeframe : Timeframe) (seed : ℕ) (rs : MockRands) :
    HealthData :=
  { steps := (mockSteps timeframe seed rs.rSteps : ℚ)
    heartRate :=
      { resting := (mockResting timeframe seed rs.rResting : ℚ)
        average := (mockAverage timeframe seed rs.rAverage : ℚ)
        max := (mockMax timeframe seed rs.rMax : ℚ) }
    sleepHours := mockSleep timeframe seed rs.rSleep
    activeCalories := (mockCalories timeframe seed rs.rCalories : ℚ)
    workouts := (mockWorkoutCount timeframe seed rs.rWorkouts : ℚ) }

/-- The ambient state consulted by one call to getHealthSummary: the live-sync
file, the clock, the export file, and the date seed and random draws the mock
generator would use. -/
structure ResolverEnv where
  liveFile : Option (Option LiveSnapshotJson)
  now : ℤ
  xmlFile : Option XmlFile
  mockSeed : ℕ
  mockRands : MockRands
deriving DecidableEq, Repr

/-- AppleHealthReader.getHealthSummary: live-sync first, then the export
(existence/header check, then parse with every parse failure caught and sent
to mock data), then mock data as the terminal fallback. -/
def getHealthSummary (env : ResolverEnv) (timeframe : Timeframe) : HealthData :=
  match readiPhoneData env.liveFile env.now with
  | some d => processiPhoneData d timeframe
  | none =>
    if checkForAppleHealthData env.xmlFile then
      match parseHealthData env.xmlFile timeframe env.now with
      | .ok result => result
      | .error _ => getRealisticMockData timeframe env.mockSeed env.mockRands
    else
      getRealisticMockData timeframe env.mockSeed env.mockRands

/-- One entry of the literal mockWorkouts array of getWorkoutDetails. -/
structure MockWorkout where
  date : String
  activity : String
  duration : String
  distance : Option String
  avgHeartRate : ℕ
  maxHeartRate : ℕ
  calories : ℕ
  pace : Option String
  avgSpeed : Option String
deriving DecidableEq, Repr

/-- The literal three-element mockWorkouts array (index.ts). -/
def mockWorkouts : List MockWorkout :=
  [ { date := "2025-07-17", activity := "Running", duration := "32:15"
      distance := some "4.2 miles", avgHeartRate := 145, maxHeartRate := 172
      calories := 320, pace := some "7:41 /mile", avgSpeed := none }
  , { date := "2025-07-16", activity := "Strength Training", duration := "45:30"
      distance := none, avgHeartRate := 110, maxHeartRate := 140
      calories := 280, pace := none, avgSpeed := none }
  , { date := "2025-07-15", activity := "Cycling", duration := "1:15:22"
      distance := some "18.5 miles", avgHeartRate := 135, maxHeartRate := 165
      calories := 450, pace := none, avgSpeed := some "14.7 mph" } ]

/-- AppleWatchMCPServer.getWorkoutDetails: `const limit = args.limit || 5`
(a missing or zero argument becomes 5) followed by `mockWorkouts.slice(0, limit)`. -/
def getWorkoutDetails (limitArg : Option ℕ) : List MockWorkout :=
  let limit : ℕ :=
    match limitArg with
    | some n => if n = 0 then 5 else n
    | none => 5
  mockWorkouts.take limit

/-- Modelled from the words of the claim on the Live-Sync mapping: the triple
is synthesized from the (individually defaulted) heartRate reading, and the
workout count is synthesized from the timeframe and the activeCalories value.
This is the reference mapping the code is compared against. -/
def specLiveMapping (d : LiveSnapshotJson) (timeframe : Timeframe) : HealthData :=
  let hr := d.heartRate.getD 75
  let cal := d.activeCalories.getD 400
  { steps := d.steps.getD 0
    heartRate := { resting := hr - 10, average := hr, max := hr + 60 }
    sleepHours := d.sleepHours.getD 7.5
    activeCalories := cal
    workouts :=
      if timeframe = Timeframe.today then (if 300 < cal then 1 else 0) else 5 }

/-- The amended reference mapping for the Live-Sync Reader, written from the
corrected claim text: a scalar field that is missing, or present with value 0,
is replaced by its default; the resting default is 55 because the code
substitutes 65 for the missing heartRate and then subtracts 10; the synthetic
workout count for today tests the raw activeCalories field, so a missing or
zero field yields 0 workouts even though the activeCalories field itself
defaults to 400. -/
def specLiveMappingAmended (d : LiveSnapshotJson) (timeframe : Timeframe) :
    HealthData :=
  { steps :=
      match d.steps with
      | some s => if s = 0 then 0 else s
      | none => 0
    heartRate :=
      { resting :=
          (match d.heartRate with
           | some h => if h = 0 then 65 else h
           | none => 65) - 10
        average :=
          match d.heartRate with
          | some h => if h = 0 then 75 else h
          | none => 75
        max :=
          (match d.heartRate with
           | some h => if h = 0 then 75 else h
           | none => 75) + 60 }
    sleepHours :=
      match d.sleepHours with
      | some s => if s = 0 then 7.5 else s
      | none => 7.5
    activeCalories :=
      match d.activeCalories with
      | some c => if c = 0 then 400 else c
      | none => 400
    workouts :=
      if timeframe = Timeframe.today then
        match d.activeCalories with
        | some c => if c ≠ 0 ∧ 300 < c then 1 else 0
        | none => 0
      else 5 }

/-- Exact mean of `f` applied to a Math.random() draw, computed over the
uniform grid of denominator 12000.  Every randomized site of
getRealisticMockData has the form `floor(r * K)` with `K` dividing 12000
(K = 4000, 1500, 1000, 200, 400, 3, 5, ...) or `round(m * r + c)` with
`m` dividing 30, so on this grid each site takes each of its outcomes with
exactly the frequency it has under the continuous uniform draw, and this
grid mean is the exact expected value. -/
def gridExp (f : ℚ → ℚ) : ℚ :=
  (∑ i ∈ Finset.range 12000, f ((i : ℚ) / 12000)) / 12000

/-- Expected steps of the mock band for a timeframe and seed. -/
def stepsExp (timeframe : Timeframe) (seed : ℕ) : ℚ :=
  gridExp (fun r => (mockSteps timeframe seed r : ℚ))

/-- Expected activeCalories of the mock band for a timeframe and seed. -/
def caloriesExp (timeframe : Timeframe) (seed : ℕ) : ℚ :=
  gridExp (fun r => (mockCalories timeframe seed r : ℚ))

/-- Expected workout count of the mock band for a timeframe and seed. -/
def workoutsExp (timeframe : Timeframe) (seed : ℕ) : ℚ :=
  gridExp (fun r => (mockWorkoutCount timeframe seed r : ℚ))

/-- A live snapshot with a fresh timestamp and no heartRate field. -/
def jNoHeartRate : LiveSnapshotJson :=
  { steps := some 5000, heartRate := none, sleepHours := some 8
    activeCalories := some 350, timestamp := some (some 0) }

/-- A live snapshot whose timestamp is exactly 24 hours in the past at
`now = 86400000`. -/
def jStale : LiveSnapshotJson :=
  { steps := some 1000, heartRate := some 70, sleepHours := some 7
    activeCalories := some 500, timestamp := some (some 0) }

/-- A small, well-formed export file that parses to empty collections. -/
def xmlGood : XmlFile :=
  { sizeBytes := 1048576, headerValid := true, outcome := .parsed [] [] }

/-- A small export file whose content fails to parse. -/
def xmlMalformed : XmlFile :=
  { sizeBytes := 1048576, headerValid := true, outcome := .malformed }

/-- An export file whose stat-reported size is 200 MB. -/
def xmlHuge : XmlFile :=
  { sizeBytes := 209715200, headerValid := true
    outcome := .parsed [{ rtype := "HKQuantityTypeIdentifierStepCount"
                        , value := 1, startDate := 0, endDate := 0 }] [] }

/-- All seven Math.random() draws at 0. -/
def rands0 : MockRands :=
  { rSteps := 0, rResting := 0, rAverage := 0, rMax := 0
    rSleep := 0, rCalories := 0, rWorkouts := 0 }

/-- An environment with a fresh live snapshot and a valid export both present. -/
def envLiveFresh : ResolverEnv :=
  { liveFile := some (some jNoHeartRate), now := 1000
    xmlFile := some xmlGood, mockSeed := 3, mockRands := rands0 }

/-- An environment with no live-sync file and a malformed export. -/
def envNoLiveBadXml : ResolverEnv :=
  { liveFile := none, now := 1000
    xmlFile := some xmlMalformed, mockSeed := 3, mockRands := rands0 }

/-- A StepCount record carrying a negative parsed value, dated at the epoch. -/
def badStepRecord : RawRecord :=
  { rtype := "HKQuantityTypeIdentifierStepCount", value := -1
    startDate := 0, endDate := 0 }

/-! Helper lemmas about rounding, lists, the time window, and the grid mean. -/

theorem jsRound_zero : jsRound 0 = 0 := by
  unfold jsRound
  rw [zero_add]
  exact Int.floor_eq_zero_iff.mpr (by norm_num)

theorem jsRound_nonneg {x : ℚ} (h : 0 ≤ x) : 0 ≤ jsRound x :=
  Int.floor_nonneg.mpr (by linarith)

theorem one_le_jsRound {x : ℚ} (h : 1/2 ≤ x) : 1 ≤ jsRound x :=
  Int.le_floor.mpr (by push_cast; linarith)

theorem jsRound_mono {x y : ℚ} (h : x ≤ y) : jsRound x ≤ jsRound y :=
  Int.floor_le_floor (by linarith)

theorem jsFloor_nonneg {x : ℚ} (h : 0 ≤ x) : 0 ≤ jsFloor x :=
  Int.floor_nonneg.mpr h

theorem mockTerm_nonneg {a b : ℤ} {x : ℚ} (hx : 0 ≤ x) (ha : 0 ≤ a) (hb : 0 ≤ b) :
    0 ≤ jsFloor x + a + b := by
  have h1 := jsFloor_nonneg hx
  linarith

theorem natValued_sum (l : List ℚ) (h : ∀ x ∈ l, ∃ n : ℕ, x = (n : ℚ)) :
    ∃ n : ℕ, l.sum = (n : ℚ) := by
  induction l with
  | nil => exact ⟨0, by simp⟩
  | cons x xs ih =>
    obtain ⟨n, hn⟩ := h x (List.mem_cons_self x xs)
    obtain ⟨m, hm⟩ := ih (fun y hy => h y (List.mem_cons_of_mem x hy))
    exact ⟨n + m, by simp [hn, hm]⟩

theorem le_foldl_max (l : List ℚ) (b : ℚ) : b ≤ l.foldl Max.max b := by
  induction l generalizing b with
  | nil => exact le_refl b
  | cons x xs ih => exact le_trans (le_max_left b x) (ih (Max.max b x))

theorem mem_le_foldl_max (l : List ℚ) (b : ℚ) : ∀ x ∈ l, x ≤ l.foldl Max.max b := by
  induction l generalizing b with
  | nil => intro x hx; cases hx
  | cons y ys ih =>
    intro x hx
    rcases List.mem_cons.mp hx with rfl | hx
    · exact le_trans (le_max_right b x) (le_foldl_max ys (Max.max b x))
    · exact ih (Max.max b y) x hx

theorem pickStep_foldl_mem : ∀ (l : List RawRecord) (acc : Option RawRecord)
    (r : RawRecord), l.foldl pickStep acc = some r → acc = some r ∨ r ∈ l := by
  intro l
  induction l with
  | nil => intro acc r h; exact Or.inl h
  | cons x xs ih =>
    intro acc r h
    rw [List.foldl_cons] at h
    rcases ih (pickStep acc x) r h with h' | h'
    · cases acc with
      | none =>
        simp [pickStep] at h'
        exact Or.inr (by simp [h'])
      | some a =>
        by_cases hlt : a.startDate < x.startDate
        · simp [pickStep, hlt] at h'
          exact Or.inr (by simp [h'])
        · simp [pickStep, hlt] at h'
          exact Or.inl (by rw [h'])
    · exact Or.inr (List.mem_cons_of_mem x h')

theorem pickMostRecent_mem (l : List RawRecord) (r : RawRecord)
    (h : pickMostRecent l = some r) : r ∈ l := by
  rcases pickStep_foldl_mem l none r h with h' | h'
  · cases h'
  · exact h'

theorem extractHeartRate_props (records : List RawRecord)
    (hhr : ∀ r ∈ records, r.rtype = heartRateTypeId → 1/2 ≤ r.value)
    (hrest : ∀ r ∈ records, r.rtype = restingHeartRateTypeId → 1/2 ≤ r.value) :
    1 ≤ (extractHeartRate records).resting ∧
    1 ≤ (extractHeartRate records).average ∧
    1 ≤ (extractHeartRate records).max ∧
    (extractHeartRate records).average ≤ (extractHeartRate records).max := by
  have hmemHR : ∀ x ∈ (records.filter (fun r => r.rtype = heartRateTypeId)).map
      (fun r => r.value), 1/2 ≤ x := by
    intro x hx
    obtain ⟨r, hr, rfl⟩ := List.mem_map.mp hx
    obtain ⟨hr1, hr2⟩ := List.mem_filter.mp hr
    exact hhr r hr1 (by simpa using hr2)
  unfold extractHeartRate
  cases hc : (records.filter (fun r => r.rtype = heartRateTypeId)).map
      (fun r => r.value) with
  | nil => norm_num
  | cons h t =>
    rw [hc] at hmemHR
    have hhalf_h : 1/2 ≤ h := hmemHR h (List.mem_cons_self h t)
    have hlenpos : (0 : ℚ) < ((h :: t).length : ℚ) := by
      exact_mod_cast Nat.succ_pos t.length
    have hmax : ∀ x ∈ h :: t, x ≤ t.foldl Max.max h := by
      intro x hx
      rcases List.mem_cons.mp hx with rfl | hx
      · exact le_foldl_max t x
      · exact mem_le_foldl_max t h x hx
    have hsum_le : (h :: t).sum ≤ ((h :: t).length : ℚ) * (t.foldl Max.max h) := by
      calc (h :: t).sum ≤ (h :: t).length • (t.foldl Max.max h) :=
            List.sum_le_card_nsmul _ _ hmax
        _ = ((h :: t).length : ℚ) * (t.foldl Max.max h) := by
            rw [nsmul_eq_mul]
    have hsum_ge : ((h :: t).length : ℚ) * (1/2) ≤ (h :: t).sum := by
      calc ((h :: t).length : ℚ) * (1/2) = (h :: t).length • (1/2 : ℚ) := by
            rw [nsmul_eq_mul]
        _ ≤ (h :: t).sum := List.card_nsmul_le_sum _ _ hmemHR
    have havg_ge : 1/2 ≤ (h :: t).sum / ((h :: t).length : ℚ) := by
      rw [le_div_iff₀ hlenpos]
      linarith [hsum_ge]
    have havg_le : (h :: t).sum / ((h :: t).length : ℚ) ≤ t.foldl Max.max h := by
      rw [div_le_iff₀ hlenpos]
      linarith [hsum_le]
    have hmax_ge : 1/2 ≤ t.foldl Max.max h := le_trans hhalf_h (le_foldl_max t h)
    refine ⟨?_, ?_, ?_, ?_⟩
    · simp only []
      cases hp : pickMostRecent (records.filter
          (fun r => r.rtype = restingHeartRateTypeId)) with
      | none =>
        norm_num
      | some r =>
        have hmem := pickMostRecent_mem _ _ hp
        obtain ⟨hm1, hm2⟩ := List.mem_filter.mp hmem
        have h0 := hrest r hm1 (by simpa using hm2)
        have h1 := one_le_jsRound h0
        exact_mod_cast h1
    · have h1 := one_le_jsRound havg_ge
      simp only []
      exact_mod_cast h1
    · have h1 := one_le_jsRound hmax_ge
      simp only []
      exact_mod_cast h1
    · have h1 := jsRound_mono havg_le
      simp only []
      exact_mod_cast h1

theorem startOfDay_sub_days (t k : ℤ) :
    startOfDay (t - k * msPerDay) = startOfDay t - k * msPerDay := by
  unfold startOfDay msPerDay
  have h : t - k * 86400000 = t + (-k) * 86400000 := by ring
  rw [h, Int.add_mul_ediv_right _ _ (by norm_num : (86400000 : ℤ) ≠ 0)]
  ring

theorem floor_natCast_div (i q : ℕ) : ⌊(i : ℚ) / (q : ℚ)⌋ = ((i / q : ℕ) : ℤ) := by
  rw [← Int.natCast_floor_eq_floor (by positivity), Nat.floor_div_eq_div]

theorem sum_range_mul_div (q K : ℕ) (hq : 0 < q) :
    ∑ i ∈ Finset.range (q * K), i / q = q * ∑ j ∈ Finset.range K, j := by
  induction K with
  | zero => simp
  | succ K ih =>
    rw [Nat.mul_succ, Finset.sum_range_add, ih, Finset.sum_range_succ]
    have hblock : ∀ x ∈ Finset.range q, (q * K + x) / q = K := by
      intro x hx
      rw [Nat.mul_add_div hq, Nat.div_eq_of_lt (Finset.mem_range.mp hx)]
      omega
    rw [Finset.sum_congr rfl hblock, Finset.sum_const, Finset.card_range]
    ring

theorem gridExp_const (c : ℚ) : gridExp (fun _ => c) = c := by
  unfold gridExp
  rw [Finset.sum_const, Finset.card_range, nsmul_eq_mul]
  norm_num

theorem gridExp_floor_add (Kq : ℚ) (K q : ℕ) (hK : Kq = (K : ℚ)) (hq : 0 < q)
    (hqK : q * K = 12000) (c : ℚ) :
    gridExp (fun r => ((⌊r * Kq⌋ : ℤ) : ℚ) + c) = (Kq - 1) / 2 + c := by
  have hKne : K ≠ 0 := by
    intro h0
    rw [h0, Nat.mul_zero] at hqK
    exact absurd hqK (by norm_num)
  have hKpos : 0 < K := Nat.pos_of_ne_zero hKne
  have hKQ0 : (0:ℚ) < (K:ℚ) := by exact_mod_cast hKpos
  have hq0 : (0:ℚ) < (q:ℚ) := by exact_mod_cast hq
  have h12 : (12000 : ℚ) = (q : ℚ) * (K : ℚ) := by exact_mod_cast hqK.symm
  have harg : ∀ i : ℕ, ((i : ℚ) / 12000) * Kq = (i : ℚ) / (q : ℚ) := by
    intro i
    rw [hK, h12]
    field_simp
    ring
  unfold gridExp
  have hterm : ∀ i ∈ Finset.range 12000,
      ((⌊((i : ℚ) / 12000) * Kq⌋ : ℤ) : ℚ) + c = ((i / q : ℕ) : ℚ) + c := by
    intro i _
    rw [harg i, floor_natCast_div, Int.cast_natCast]
  rw [Finset.sum_congr rfl hterm, Finset.sum_add_distrib, Finset.sum_const,
    Finset.card_range, nsmul_eq_mul]
  have hcast : ∑ i ∈ Finset.range 12000, ((i / q : ℕ) : ℚ) =
      ((∑ i ∈ Finset.range 12000, i / q : ℕ) : ℚ) := by
    push_cast
    rfl
  rw [hcast, ← hqK, sum_range_mul_div q K hq]
  have hSumQ : (∑ j ∈ Finset.range K, (j : ℚ)) = (K : ℚ) * ((K : ℚ) - 1) / 2 := by
    have h2 := Finset.sum_range_id_mul_two K
    have h3 : ((∑ j ∈ Finset.range K, j : ℕ) : ℚ) * 2 = ((K * (K - 1) : ℕ) : ℚ) := by
      exact_mod_cast congrArg (fun n : ℕ => (n : ℚ)) h2
    push_cast [Nat.cast_sub hKpos] at h3
    linarith
  push_cast
  rw [hSumQ, hK, h12]
  field_simp
  ring

theorem stepsExp_today (seed : ℕ) :
    stepsExp Timeframe.today seed = 3999 / 2 + (7000 + 100 * (seed : ℚ)) := by
  have hf : (fun r : ℚ => ((mockSteps Timeframe.today seed r : ℤ) : ℚ)) =
      (fun r : ℚ => ((⌊r * (4000 : ℚ)⌋ : ℤ) : ℚ) + (7000 + 100 * (seed : ℚ))) := by
    funext r
    show ((jsFloor (r * 4000) + 7000 + (seed : ℤ) * 100 : ℤ) : ℚ) = _
    unfold jsFloor
    push_cast
    ring
  rw [stepsExp, hf,
    gridExp_floor_add (4000 : ℚ) 4000 3 (by norm_num) (by norm_num) (by norm_num)
      (7000 + 100 * (seed : ℚ))]
  norm_num

theorem stepsExp_week (seed : ℕ) :
    stepsExp Timeframe.week seed = 1499 / 2 + (8500 + 50 * (seed : ℚ)) := by
  have hf : (fun r : ℚ => ((mockSteps Timeframe.week seed r : ℤ) : ℚ)) =
      (fun r : ℚ => ((⌊r * (1500 : ℚ)⌋ : ℤ) : ℚ) + (8500 + 50 * (seed : ℚ))) := by
    funext r
    show ((jsFloor (r * 1500) + 8500 + (seed : ℤ) * 50 : ℤ) : ℚ) = _
    unfold jsFloor
    push_cast
    ring
  rw [stepsExp, hf,
    gridExp_floor_add (1500 : ℚ) 1500 8 (by norm_num) (by norm_num) (by norm_num)
      (8500 + 50 * (seed : ℚ))]
  norm_num

theorem caloriesExp_today (seed : ℕ) :
    caloriesExp Timeframe.today seed = 199 / 2 + (350 + 20 * (seed : ℚ)) := by
  have hf : (fun r : ℚ => ((mockCalories Timeframe.today seed r : ℤ) : ℚ)) =
      (fun r : ℚ => ((⌊r * (200 : ℚ)⌋ : ℤ) : ℚ) + (350 + 20 * (seed : ℚ))) := by
    funext r
    show ((jsFloor (r * 200) + 350 + (seed : ℤ) * 20 : ℤ) : ℚ) = _
    unfold jsFloor
    push_cast
    ring
  rw [caloriesExp, hf,
    gridExp_floor_add (200 : ℚ) 200 60 (by norm_num) (by norm_num) (by norm_num)
      (350 + 20 * (seed : ℚ))]
  norm_num

theorem caloriesExp_week (seed : ℕ) :
    caloriesExp Timeframe.week seed = 399 / 2 + (2800 + 30 * (seed : ℚ)) := by
  have hf : (fun r : ℚ => ((mockCalories Timeframe.week seed r : ℤ) : ℚ)) =
      (fun r : ℚ => ((⌊r * (400 : ℚ)⌋ : ℤ) : ℚ) + (2800 + 30 * (seed : ℚ))) := by
    funext r
    show ((jsFloor (r * 400) + 2800 + (seed : ℤ) * 30 : ℤ) : ℚ) = _
    unfold jsFloor
    push_cast
    ring
  rw [caloriesExp, hf,
    gridExp_floor_add (400 : ℚ) 400 30 (by norm_num) (by norm_num) (by norm_num)
      (2800 + 30 * (seed : ℚ))]
  norm_num

theorem caloriesExp_month (seed : ℕ) :
    caloriesExp Timeframe.month seed = 1499 / 2 + (12000 + 100 * (seed : ℚ)) := by
  have hf : (fun r : ℚ => ((mockCalories Timeframe.month seed r : ℤ) : ℚ)) =
      (fun r : ℚ => ((⌊r * (1500 : ℚ)⌋ : ℤ) : ℚ) + (12000 + 100 * (seed : ℚ))) := by
    funext r
    show ((jsFloor (r * 1500) + 12000 + (seed : ℤ) * 100 : ℤ) : ℚ) = _
    unfold jsFloor
    push_cast
    ring
  rw [caloriesExp, hf,
    gridExp_floor_add (1500 : ℚ) 1500 8 (by norm_num) (by norm_num) (by norm_num)
      (12000 + 100 * (seed : ℚ))]
  norm_num

theorem workoutsExp_today (seed : ℕ) :
    workoutsExp Timeframe.today seed =
      (((if seed % 3 = 0 then (1 : ℤ) else 0) : ℤ) : ℚ) := by
  have hf : (fun r : ℚ => ((mockWorkoutCount Timeframe.today seed r : ℤ) : ℚ)) =
      (fun _ : ℚ => (((if seed % 3 = 0 then (1 : ℤ) else 0) : ℤ) : ℚ)) := by
    funext r
    rfl
  rw [workoutsExp, hf, gridExp_const]

theorem workoutsExp_week (seed : ℕ) :
    workoutsExp Timeframe.week seed = 1 + (4 + ((seed % 3 : ℕ) : ℚ)) := by
  have hf : (fun r : ℚ => ((mockWorkoutCount Timeframe.week seed r : ℤ) : ℚ)) =
      (fun r : ℚ => ((⌊r * (3 : ℚ)⌋ : ℤ) : ℚ) + (4 + ((seed % 3 : ℕ) : ℚ))) := by
    funext r
    show ((jsFloor (r * 3) + 4 + ((seed % 3 : ℕ) : ℤ) : ℤ) : ℚ) = _
    generalize (seed % 3 : ℕ) = m
    unfold jsFloor
    push_cast
    ring
  rw [workoutsExp, hf,
    gridExp_floor_add (3 : ℚ) 3 4000 (by norm_num) (by norm_num) (by norm_num)
      (4 + ((seed % 3 : ℕ) : ℚ))]
  norm_num

theorem workoutsExp_month (seed : ℕ) :
    workoutsExp Timeframe.month seed = 2 + (18 + ((seed % 4 : ℕ) : ℚ)) := by
  have hf : (fun r : ℚ => ((mockWorkoutCount Timeframe.month seed r : ℤ) : ℚ)) =
      (fun r : ℚ => ((⌊r * (5 : ℚ)⌋ : ℤ) : ℚ) + (18 + ((seed % 4 : ℕ) : ℚ))) := by
    funext r
    show ((jsFloor (r * 5) + 18 + ((seed % 4 : ℕ) : ℤ) : ℤ) : ℚ) = _
    generalize (seed % 4 : ℕ) = m
    unfold jsFloor
    push_cast
    ring
  rw [workoutsExp, hf,
    gridExp_floor_add (5 : ℚ) 5 2400 (by norm_num) (by norm_num) (by norm_num)
      (18 + ((seed % 4 : ℕ) : ℚ))]
  norm_num

theorem mockSteps_nonneg (tf : Timeframe) (seed : ℕ) {r : ℚ} (hr : 0 ≤ r) :
    0 ≤ mockSteps tf seed r := by
  cases tf <;>
    exact mockTerm_nonneg (mul_nonneg hr (by norm_num)) (by norm_num)
      (mul_nonneg (Int.natCast_nonneg _) (by norm_num))

theorem mockResting_nonneg (tf : Timeframe) (seed : ℕ) {r : ℚ} (hr : 0 ≤ r) :
    0 ≤ mockResting tf seed r := by
  cases tf <;>
    exact mockTerm_nonneg (mul_nonneg hr (by norm_num)) (by norm_num)
      (Int.natCast_nonneg _)

theorem mockAverage_nonneg (tf : Timeframe) (seed : ℕ) {r : ℚ} (hr : 0 ≤ r) :
    0 ≤ mockAverage tf seed r := by
  cases tf <;>
    exact mockTerm_nonneg (mul_nonneg hr (by norm_num)) (by norm_num)
      (Int.natCast_nonneg _)

theorem mockMax_nonneg (tf : Timeframe) (seed : ℕ) {r : ℚ} (hr : 0 ≤ r) :
    0 ≤ mockMax tf seed r := by
  cases tf <;>
    exact mockTerm_nonneg (mul_nonneg hr (by norm_num)) (by norm_num)
      (Int.natCast_nonneg _)

theorem mockCalories_nonneg (tf : Timeframe) (seed : ℕ) {r : ℚ} (hr : 0 ≤ r) :
    0 ≤ mockCalories tf seed r := by
  cases tf <;>
    exact mockTerm_nonneg (mul_nonneg hr (by norm_num)) (by norm_num)
      (mul_nonneg (Int.natCast_nonneg _) (by norm_num))

theorem mockWorkoutCount_nonneg (tf : Timeframe) (seed : ℕ) {r : ℚ} (hr : 0 ≤ r) :
    0 ≤ mockWorkoutCount tf seed r := by
  cases tf with
  | today =>
    show (0:ℤ) ≤ if seed % 3 = 0 then 1 else 0
    split <;> norm_num
  | week =>
    exact mockTerm_nonneg (mul_nonneg hr (by norm_num)) (by norm_num)
      (Int.natCast_nonneg _)
  | month =>
    exact mockTerm_nonneg (mul_nonneg hr (by norm_num)) (by norm_num)
      (Int.natCast_nonneg _)

theorem mockSleep_nonneg (tf : Timeframe) (seed : ℕ) {r : ℚ} (hr : 0 ≤ r) :
    0 ≤ mockSleep tf seed r := by
  cases tf with
  | today =>
    have hc : (0:ℚ) ≤ ((seed % 3 : ℕ) : ℚ) := Nat.cast_nonneg _
    have harg : (0:ℚ) ≤ (r * 1.5 + 7 + ((seed % 3 : ℕ) : ℚ) * 0.2) * 10 := by
      nlinarith
    have h2 : (0:ℚ) ≤
        ((jsRound ((r * 1.5 + 7 + ((seed % 3 : ℕ) : ℚ) * 0.2) * 10) : ℤ) : ℚ) := by
      exact_mod_cast jsRound_nonneg harg
    exact div_nonneg h2 (by norm_num)
  | week =>
    have hc : (0:ℚ) ≤ ((seed % 2 : ℕ) : ℚ) := Nat.cast_nonneg _
    have harg : (0:ℚ) ≤ (r * 1 + 7.1 + ((seed % 2 : ℕ) : ℚ) * 0.3) * 10 := by
      nlinarith
    have h2 : (0:ℚ) ≤
        ((jsRound ((r * 1 + 7.1 + ((seed % 2 : ℕ) : ℚ) * 0.3) * 10) : ℤ) : ℚ) := by
      exact_mod_cast jsRound_nonneg harg
    exact div_nonneg h2 (by norm_num)
  | month =>
    have hc : (0:ℚ) ≤ ((seed % 2 : ℕ) : ℚ) := Nat.cast_nonneg _
    have harg : (0:ℚ) ≤ (r * 0.8 + 7.3 + ((seed % 2 : ℕ) : ℚ) * 0.2) * 10 := by
      nlinarith
    have h2 : (0:ℚ) ≤
        ((jsRound ((r * 0.8 + 7.3 + ((seed % 2 : ℕ) : ℚ) * 0.2) * 10) : ℤ) : ℚ) := by
      exact_mod_cast jsRound_nonneg harg
    exact div_nonneg h2 (by norm_num)

/-! Claim theorems. -/

/-- C1: for every valid timeframe, if the live-sync snapshot is present,
readable, and fresh (timestamp less than 24 hours old), getHealthSummary
returns the summary derived from that snapshot by processiPhoneData, and its
result does not depend on the export file at all (so the XML export is never
consulted, even when a valid export exists): Live-Sync strictly precedes XML
Export in the fallback chain. -/
theorem c1_live_sync_precedes_xml (env : ResolverEnv) (tf : Timeframe)
    (j : LiveSnapshotJson) (t : ℤ)
    (hfile : env.liveFile = some (some j))
    (hts : j.timestamp = some (some t))
    (hfresh : env.now - t < 86400000) :
    getHealthSummary env tf = processiPhoneData j tf ∧
    ∀ x : Option XmlFile,
      getHealthSummary { env with xmlFile := x } tf = processiPhoneData j tf := by
  have hread : readiPhoneData env.liveFile env.now = some j := by
    simp [readiPhoneData, hfile, hts, hfresh]
  constructor
  · simp [getHealthSummary, hread]
  · intro x
    simp [getHealthSummary, hread]

/-- Witness for C1: a concrete environment holding both a fresh snapshot and a
valid export resolves to the snapshot-derived summary. -/
theorem c1_live_sync_precedes_xml_witness :
    envLiveFresh.liveFile = some (some jNoHeartRate) ∧
    jNoHeartRate.timestamp = some (some 0) ∧
    envLiveFresh.now - 0 < 86400000 ∧
    getHealthSummary envLiveFresh Timeframe.today =
      processiPhoneData jNoHeartRate Timeframe.today :=
  ⟨rfl, rfl, by norm_num [envLiveFresh],
    (c1_live_sync_precedes_xml envLiveFresh Timeframe.today jNoHeartRate 0 rfl rfl
      (by norm_num [envLiveFresh])).1⟩

/-- C2: for every environment and valid timeframe, getHealthSummary returns a
HealthData that is the output of one of the three sources (live-sync mapping,
successful export extraction, or the synthetic generator) — it never
propagates an error to its caller — and in particular, with no live-sync file
and an export whose parse fails, it returns the synthetic generator result. -/
theorem c2_resolver_total_fallback (env : ResolverEnv) (tf : Timeframe) :
    ((∃ j, getHealthSummary env tf = processiPhoneData j tf) ∨
     (∃ d, parseHealthData env.xmlFile tf env.now = .ok d ∧
        getHealthSummary env tf = d) ∨
     getHealthSummary env tf = getRealisticMockData tf env.mockSeed env.mockRands) ∧
    (env.liveFile = none →
      (∃ e, parseHealthData env.xmlFile tf env.now = .error e) →
      getHealthSummary env tf =
        getRealisticMockData tf env.mockSeed env.mockRands) := by
  constructor
  · cases hr : readiPhoneData env.liveFile env.now with
    | some j => exact Or.inl ⟨j, by simp [getHealthSummary, hr]⟩
    | none =>
      cases hc : checkForAppleHealthData env.xmlFile with
      | false => exact Or.inr (Or.inr (by simp [getHealthSummary, hr, hc]))
      | true =>
        cases hp : parseHealthData env.xmlFile tf env.now with
        | ok d =>
          refine Or.inr (Or.inl ⟨d, rfl, ?_⟩)
          simp [getHealthSummary, hr, hc, hp]
        | error e => exact Or.inr (Or.inr (by simp [getHealthSummary, hr, hc, hp]))
  · rintro hlive ⟨e, he⟩
    have hr : readiPhoneData env.liveFile env.now = none := by
      simp [readiPhoneData, hlive]
    cases hc : checkForAppleHealthData env.xmlFile with
    | false => simp [getHealthSummary, hr, hc]
    | true => simp [getHealthSummary, hr, hc, he]

/-- Witness for C2: with no live-sync file and a malformed export, the concrete
environment resolves to the synthetic generator result. -/
theorem c2_resolver_total_fallback_witness :
    envNoLiveBadXml.liveFile = none ∧
    parseHealthData envNoLiveBadXml.xmlFile Timeframe.week envNoLiveBadXml.now =
      .error ParseFailure.malformed ∧
    getHealthSummary envNoLiveBadXml Timeframe.week =
      getRealisticMockData Timeframe.week envNoLiveBadXml.mockSeed
        envNoLiveBadXml.mockRands := by
  refine ⟨rfl, ?_, ?_⟩
  · norm_num [parseHealthData, parseWithTimeout, envNoLiveBadXml, xmlMalformed]
  · exact (c2_resolver_total_fallback envNoLiveBadXml Timeframe.week).2 rfl
      ⟨ParseFailure.malformed,
        by norm_num [parseHealthData, parseWithTimeout, envNoLiveBadXml, xmlMalformed]⟩

/-- C3, counterexample: the claim quantifies over every input record
collection, but a StepCount record whose parsed value is negative makes the
extracted steps field negative, so the produced HealthSummary does not have
all fields non-negative. -/
theorem c3_counterexample :
    (extractHealthMetrics [badStepRecord] [] Timeframe.today 0).steps < 0 := by
  norm_num [extractHealthMetrics, extractSteps, badStepRecord, getDateRange,
    startOfDay, endOfDay, msPerDay, stepTypeId, List.filter]

/-- C3, amended: for every valid timeframe and every record collection whose
parsed values are non-negative, whose StepCount values are whole numbers,
whose HeartRate and RestingHeartRate values are at least one half (so they
round to positive integers), and whose SleepAnalysis records end no earlier
than they start, the extracted HealthSummary has steps a non-negative
integer, activeCalories a non-negative integer, workouts a non-negative
integer, sleepHours non-negative, and a heart-rate triple of positive
integers with max at least average. -/
theorem c3_extract_invariants_amended (records : List RawRecord)
    (workouts : List RawWorkout) (tf : Timeframe) (now : ℤ)
    (hval : ∀ r ∈ records, 0 ≤ r.value)
    (hstep : ∀ r ∈ records, r.rtype = stepTypeId → ∃ n : ℕ, r.value = (n : ℚ))
    (hhr : ∀ r ∈ records, r.rtype = heartRateTypeId → 1/2 ≤ r.value)
    (hrest : ∀ r ∈ records, r.rtype = restingHeartRateTypeId → 1/2 ≤ r.value)
    (hsleep : ∀ r ∈ records, r.rtype = sleepTypeId → r.startDate ≤ r.endDate) :
    (∃ n : ℕ, (extractHealthMetrics records workouts tf now).steps = (n : ℚ)) ∧
    (∃ n : ℕ,
      (extractHealthMetrics records workouts tf now).activeCalories = (n : ℚ)) ∧
    (∃ n : ℕ, (extractHealthMetrics records workouts tf now).workouts = (n : ℚ)) ∧
    0 ≤ (extractHealthMetrics records workouts tf now).sleepHours ∧
    1 ≤ (extractHealthMetrics records workouts tf now).heartRate.resting ∧
    1 ≤ (extractHealthMetrics records workouts tf now).heartRate.average ∧
    1 ≤ (extractHealthMetrics records workouts tf now).heartRate.max ∧
    (extractHealthMetrics records workouts tf now).heartRate.average ≤
      (extractHealthMetrics records workouts tf now).heartRate.max := by
  have hF : ∀ r ∈ records.filter
      (fun r => decide ((getDateRange tf now).1 ≤ r.startDate) &&
        decide (r.startDate ≤ (getDateRange tf now).2)), r ∈ records :=
    fun r hr => List.mem_of_mem_filter hr
  set F := records.filter
      (fun r => decide ((getDateRange tf now).1 ≤ r.startDate) &&
        decide (r.startDate ≤ (getDateRange tf now).2)) with hFdef
  have hd : extractHealthMetrics records workouts tf now =
      { steps := extractSteps F
        heartRate := extractHeartRate F
        sleepHours := extractSleep F
        activeCalories := extractActiveCalories F
        workouts := ((workouts.filter
          (fun w => decide ((getDateRange tf now).1 ≤ w.startDate) &&
            decide (w.startDate ≤ (getDateRange tf now).2))).length : ℚ) } := rfl
  rw [hd]
  refine ⟨?_, ?_, ?_, ?_, ?_⟩
  · apply natValued_sum
    intro x hx
    obtain ⟨r, hr, rfl⟩ := List.mem_map.mp hx
    obtain ⟨hr1, hr2⟩ := List.mem_filter.mp hr
    exact hstep r (hF r hr1) (by simpa using hr2)
  · have hS : 0 ≤ ((F.filter (fun r => r.rtype = activeEnergyTypeId)).map
        (fun r => r.value)).sum := by
      apply List.sum_nonneg
      intro x hx
      obtain ⟨r, hr, rfl⟩ := List.mem_map.mp hx
      exact hval r (hF r (List.mem_of_mem_filter hr))
    have hz := jsRound_nonneg hS
    refine ⟨(jsRound (((F.filter (fun r => r.rtype = activeEnergyTypeId)).map
        (fun r => r.value)).sum)).toNat, ?_⟩
    show ((jsRound _ : ℤ) : ℚ) = _
    exact_mod_cast (congrArg (fun z : ℤ => (z : ℚ))
      (Int.toNat_of_nonneg hz)).symm
  · exact ⟨_, rfl⟩
  · unfold extractSleep
    by_cases hlen : (F.filter (fun r => r.rtype = sleepTypeId)).length = 0
    · simp [hlen]
      norm_num
    · simp only [hlen, if_false]
      have htot : 0 ≤ ((F.filter (fun r => r.rtype = sleepTypeId)).map
          (fun r => ((r.endDate - r.startDate : ℤ) : ℚ) / 60000)).sum := by
        apply List.sum_nonneg
        intro x hx
        obtain ⟨r, hr, rfl⟩ := List.mem_map.mp hx
        obtain ⟨hr1, hr2⟩ := List.mem_filter.mp hr
        have := hsleep r (hF r hr1) (by simpa using hr2)
        have hzz : (0 : ℚ) ≤ ((r.endDate - r.startDate : ℤ) : ℚ) := by
          exact_mod_cast Int.sub_nonneg.mpr this
        positivity
      have h1 : (0:ℚ) ≤ (jsRound (((F.filter (fun r => r.rtype = sleepTypeId)).map
          (fun r => ((r.endDate - r.startDate : ℤ) : ℚ) / 60000)).sum / 60 * 10) : ℚ) := by
        have := jsRound_nonneg (x := ((F.filter (fun r => r.rtype = sleepTypeId)).map
          (fun r => ((r.endDate - r.startDate : ℤ) : ℚ) / 60000)).sum / 60 * 10)
          (by positivity)
        exact_mod_cast this
      positivity
  · exact extractHeartRate_props F
      (fun r hr ht => hhr r (hF r hr) ht)
      (fun r hr ht => hrest r (hF r hr) ht)

/-- Witness for C3 amended: every hypothesis holds vacuously for the empty
collections, and the conclusions evaluate on them. -/
theorem c3_extract_invariants_amended_witness :
    (∀ r ∈ ([] : List RawRecord), 0 ≤ r.value) ∧
    ((∃ n : ℕ, (extractHealthMetrics [] [] Timeframe.today 0).steps = (n : ℚ)) ∧
     (∃ n : ℕ,
       (extractHealthMetrics [] [] Timeframe.today 0).activeCalories = (n : ℚ)) ∧
     (∃ n : ℕ, (extractHealthMetrics [] [] Timeframe.today 0).workouts = (n : ℚ)) ∧
     0 ≤ (extractHealthMetrics [] [] Timeframe.today 0).sleepHours ∧
     1 ≤ (extractHealthMetrics [] [] Timeframe.today 0).heartRate.resting ∧
     1 ≤ (extractHealthMetrics [] [] Timeframe.today 0).heartRate.average ∧
     1 ≤ (extractHealthMetrics [] [] Timeframe.today 0).heartRate.max ∧
     (extractHealthMetrics [] [] Timeframe.today 0).heartRate.average ≤
       (extractHealthMetrics [] [] Timeframe.today 0).heartRate.max) :=
  ⟨by simp,
    c3_extract_invariants_amended [] [] Timeframe.today 0
      (by simp) (by simp) (by simp) (by simp) (by simp)⟩

/-- C4: the empty record collection of every kind and zero workouts extracts to
exactly steps 0, heart rate (60, 80, 120), sleepHours 7.5, activeCalories 0,
workouts 0, for every timeframe and every clock value, without failing. -/
theorem c4_extractor_empty_defaults (tf : Timeframe) (now : ℤ) :
    extractHealthMetrics [] [] tf now =
      { steps := 0
        heartRate := { resting := 60, average := 80, max := 120 }
        sleepHours := 7.5
        activeCalories := 0
        workouts := 0 } := by
  simp [extractHealthMetrics, extractSteps, extractHeartRate, extractSleep,
    extractActiveCalories, jsRound_zero]

/-- C5, counterexample: the claim says a missing heartRate defaults to 75 so
that resting becomes 65; but the code computes resting as
`(heartRate || 65) - 10`, giving 55 for a snapshot without a heartRate field,
so the produced summary differs from the claimed reference mapping on a
snapshot the reader accepts as fresh. -/
theorem c5_counterexample :
    readiPhoneData (some (some jNoHeartRate)) 1000 = some jNoHeartRate ∧
    processiPhoneData jNoHeartRate Timeframe.today ≠
      specLiveMapping jNoHeartRate Timeframe.today := by
  constructor
  · decide
  · intro h
    have h2 := congrArg (fun d => d.heartRate.resting) h
    simp [processiPhoneData, specLiveMapping, jsOr, jNoHeartRate] at h2

/-- C5, amended: for every accepted snapshot and timeframe the produced
summary equals the corrected reference mapping, in which a scalar field that
is missing or zero is replaced by its default, a missing or zero heartRate
yields the triple (55, 75, 135) because the code subtracts 10 from a separate
default of 65, and the synthetic workout count for today tests the raw
activeCalories field, so a missing or zero activeCalories gives 0 workouts. -/
theorem c5_live_mapping_amended (d : LiveSnapshotJson) (tf : Timeframe) :
    processiPhoneData d tf = specLiveMappingAmended d tf := by
  unfold processiPhoneData specLiveMappingAmended jsOr jsTruthyGt300
  rcases d with ⟨s, h, sl, ac, ts⟩
  cases s <;> cases h <;> cases sl <;> cases ac <;> cases tf <;> simp_all

/-- C6: an export file whose stat-reported size converts to strictly more than
the 100 MB ceiling makes parseHealthData fail with the too-large error, and
the result is the same for every possible content outcome, so the full-parse
path is unreachable for oversized files: the guard trips before the content
is read. -/
theorem c6_size_guard (f : XmlFile) (tf : Timeframe) (now : ℤ)
    (hsize : 100 < (f.sizeBytes : ℚ) / 1024 / 1024) :
    parseHealthData (some f) tf now = .error ParseFailure.tooLarge ∧
    ∀ o : ParseOutcome,
      parseHealthData (some { f with outcome := o }) tf now =
        .error ParseFailure.tooLarge := by
  refine ⟨by simp [parseHealthData, hsize], fun o => by simp [parseHealthData, hsize]⟩

/-- Witness for C6: a 200 MB export file fails with the too-large error. -/
theorem c6_size_guard_witness :
    (100 < (xmlHuge.sizeBytes : ℚ) / 1024 / 1024) ∧
    parseHealthData (some xmlHuge) Timeframe.month 0 =
      .error ParseFailure.tooLarge :=
  ⟨by norm_num [xmlHuge],
    (c6_size_guard xmlHuge Timeframe.month 0 (by norm_num [xmlHuge])).1⟩

/-- C7: for every instant, the time window has start at most end; today starts
at midnight of the current day and ends at 23:59:59.999 of it; the week and
month windows start exactly 7 and 30 days earlier at midnight and share the
same end; and at now = 2025-07-18T15:00:00Z (1752850800000 ms) the today
window is [2025-07-18T00:00:00.000, 2025-07-18T23:59:59.999], that is,
[1752796800000, 1752883199999]. -/
theorem c7_time_window (now : ℤ) :
    (∀ tf, (getDateRange tf now).1 ≤ (getDateRange tf now).2) ∧
    getDateRange Timeframe.today now = (startOfDay now, endOfDay now) ∧
    (getDateRange Timeframe.week now).1 = startOfDay now - 7 * msPerDay ∧
    (getDateRange Timeframe.month now).1 = startOfDay now - 30 * msPerDay ∧
    getDateRange Timeframe.today 1752850800000 = (1752796800000, 1752883199999) := by
  refine ⟨?_, rfl, ?_, ?_, by decide⟩
  · intro tf
    cases tf with
    | today =>
      show startOfDay now ≤ endOfDay now
      unfold endOfDay
      linarith
    | week =>
      show startOfDay (now - 7 * msPerDay) ≤ endOfDay now
      rw [startOfDay_sub_days]
      unfold endOfDay msPerDay
      linarith
    | month =>
      show startOfDay (now - 30 * msPerDay) ≤ endOfDay now
      rw [startOfDay_sub_days]
      unfold endOfDay msPerDay
      linarith
  · exact startOfDay_sub_days now 7
  · exact startOfDay_sub_days now 30

/-- C8: whenever the live-sync file is absent, unreadable, lacks a usable
timestamp, or carries a timestamp at least 24 hours old, readiPhoneData
reports the source unavailable by returning none rather than consuming the
snapshot data. -/
theorem c8_live_staleness (liveFile : Option (Option LiveSnapshotJson)) (now : ℤ)
    (h : liveFile = none ∨ liveFile = some none ∨
      ∃ j, liveFile = some (some j) ∧
        (j.timestamp = none ∨ j.timestamp = some none ∨
         ∃ t, j.timestamp = some (some t) ∧ 86400000 ≤ now - t)) :
    readiPhoneData liveFile now = none := by
  rcases h with h | h | ⟨j, hj, h⟩
  · subst h
    rfl
  · subst h
    rfl
  · subst hj
    rcases h with h | h | ⟨t, ht, h⟩
    · simp [readiPhoneData, h]
    · simp [readiPhoneData, h]
    · simp [readiPhoneData, ht]
      omega

/-- Witness for C8: a snapshot exactly 24 hours old is rejected. -/
theorem c8_live_staleness_witness :
    (∃ j, some (some jStale) = some (some j) ∧
      (j.timestamp = none ∨ j.timestamp = some none ∨
       ∃ t, j.timestamp = some (some t) ∧ 86400000 ≤ (86400000 : ℤ) - t)) ∧
    readiPhoneData (some (some jStale)) 86400000 = none :=
  ⟨⟨jStale, rfl, Or.inr (Or.inr ⟨0, rfl, by norm_num⟩)⟩,
    c8_live_staleness (some (some jStale)) 86400000
      (Or.inr (Or.inr ⟨jStale, rfl, Or.inr (Or.inr ⟨0, rfl, by norm_num⟩)⟩))⟩

/-- C9, counterexample: the claim says the expected steps for today are
smaller than for week for every date-derived seed, but at seed 6 (for
example January 6 at midnight: day 6, month index 0, hour 0) the expected
steps are 19199/2 = 9599.5 for today and 19099/2 = 9549.5 for week, so the
today value is larger and the claimed monotone scaling fails. -/
theorem c9_counterexample :
    stepsExp Timeframe.today 6 = 19199 / 2 ∧
    stepsExp Timeframe.week 6 = 19099 / 2 ∧
    ¬ stepsExp Timeframe.today 6 < stepsExp Timeframe.week 6 := by
  refine ⟨?_, ?_, ?_⟩
  · rw [stepsExp_today]
    norm_num
  · rw [stepsExp_week]
    norm_num
  · rw [stepsExp_today, stepsExp_week]
    norm_num

/-- C9, amended: for every seed, the synthetic generator always produces a
structurally valid HealthSummary with all fields non-negative whenever its
random draws lie in [0, 1), and the expected values scale monotonically
today < week < month for activeCalories and for workouts; the monotone
scaling does not hold for steps (or sleepHours) at every seed, as the
counterexample shows. -/
theorem c9_mock_generator_amended (seed : ℕ) (tf : Timeframe) (rs : MockRands)
    (h : rs.InRange) :
    (0 ≤ (getRealisticMockData tf seed rs).steps ∧
     0 ≤ (getRealisticMockData tf seed rs).heartRate.resting ∧
     0 ≤ (getRealisticMockData tf seed rs).heartRate.average ∧
     0 ≤ (getRealisticMockData tf seed rs).heartRate.max ∧
     0 ≤ (getRealisticMockData tf seed rs).sleepHours ∧
     0 ≤ (getRealisticMockData tf seed rs).activeCalories ∧
     0 ≤ (getRealisticMockData tf seed rs).workouts) ∧
    caloriesExp Timeframe.today seed < caloriesExp Timeframe.week seed ∧
    caloriesExp Timeframe.week seed < caloriesExp Timeframe.month seed ∧
    workoutsExp Timeframe.today seed < workoutsExp Timeframe.week seed ∧
    workoutsExp Timeframe.week seed < workoutsExp Timeframe.month seed := by
  obtain ⟨h1, h2, h3, h4, h5, h6, h7⟩ := h
  have hseed : (0:ℚ) ≤ (seed : ℚ) := Nat.cast_nonneg _
  simp only [getRealisticMockData]
  refine ⟨⟨?_, ?_, ?_, ?_, ?_, ?_, ?_⟩, ?_, ?_, ?_, ?_⟩
  · exact_mod_cast mockSteps_nonneg tf seed h1.1
  · exact_mod_cast mockResting_nonneg tf seed h2.1
  · exact_mod_cast mockAverage_nonneg tf seed h3.1
  · exact_mod_cast mockMax_nonneg tf seed h4.1
  · exact mockSleep_nonneg tf seed h5.1
  · exact_mod_cast mockCalories_nonneg tf seed h6.1
  · exact_mod_cast mockWorkoutCount_nonneg tf seed h7.1
  · rw [caloriesExp_today, caloriesExp_week]
    linarith
  · rw [caloriesExp_week, caloriesExp_month]
    linarith
  · rw [workoutsExp_today, workoutsExp_week]
    have hle : (((if seed % 3 = 0 then (1 : ℤ) else 0) : ℤ) : ℚ) ≤ 1 := by
      split <;> norm_num
    have hm : (0:ℚ) ≤ ((seed % 3 : ℕ) : ℚ) := Nat.cast_nonneg _
    linarith
  · rw [workoutsExp_week, workoutsExp_month]
    have hm3 : ((seed % 3 : ℕ) : ℚ) ≤ 2 := by
      have := Nat.mod_lt seed (show 0 < 3 by norm_num)
      exact_mod_cast Nat.lt_succ_iff.mp this
    have hm4 : (0:ℚ) ≤ ((seed % 4 : ℕ) : ℚ) := Nat.cast_nonneg _
    linarith

/-- Witness for C9 amended: the all-zero draws are in range, and the theorem
evaluates at seed 0 for the today band. -/
theorem c9_mock_generator_amended_witness :
    rands0.InRange ∧
    ((0 ≤ (getRealisticMockData Timeframe.today 0 rands0).steps ∧
      0 ≤ (getRealisticMockData Timeframe.today 0 rands0).heartRate.resting ∧
      0 ≤ (getRealisticMockData Timeframe.today 0 rands0).heartRate.average ∧
      0 ≤ (getRealisticMockData Timeframe.today 0 rands0).heartRate.max ∧
      0 ≤ (getRealisticMockData Timeframe.today 0 rands0).sleepHours ∧
      0 ≤ (getRealisticMockData Timeframe.today 0 rands0).activeCalories ∧
      0 ≤ (getRealisticMockData Timeframe.today 0 rands0).workouts) ∧
     caloriesExp Timeframe.today 0 < caloriesExp Timeframe.week 0 ∧
     caloriesExp Timeframe.week 0 < caloriesExp Timeframe.month 0 ∧
     workoutsExp Timeframe.today 0 < workoutsExp Timeframe.week 0 ∧
     workoutsExp Timeframe.week 0 < workoutsExp Timeframe.month 0) :=
  ⟨by norm_num [MockRands.InRange, rands0],
    c9_mock_generator_amended 0 Timeframe.today rands0
      (by norm_num [MockRands.InRange, rands0])⟩

/-- C10: a get_workout_details call with limit 0 falls back to the default
limit of 5 (the default replaces every falsy limit) and returns all three
available mock workouts rather than an empty list, and for every limit of at
least 1 the handler returns min(limit, 3) workouts. -/
theorem c10_workout_limit :
    getWorkoutDetails (some 0) = mockWorkouts ∧
    (getWorkoutDetails (some 0)).length = 3 ∧
    ∀ n : ℕ, 1 ≤ n → (getWorkoutDetails (some n)).length = min n 3 := by
  refine ⟨by decide, by decide, ?_⟩
  intro n hn
  have hn0 : n ≠ 0 := by omega
  simp [getWorkoutDetails, mockWorkouts, hn0, List.length_take]

/-- Witness for C10: at limit 2 the handler returns min(2, 3) = 2 workouts. -/
theorem c10_workout_limit_witness :
    (1 ≤ 2) ∧ (getWorkoutDetails (some 2)).length = min 2 3 :=
  ⟨by norm_num, c10_workout_limit.2.2 2 (by norm_num)⟩
